import Mathlib

/-!
Shallow embedding of the ai-intro-server backend (Hono + Drizzle over MySQL).

Rows of the relational store are modelled as Lean structures, the database as
lists of rows (in insertion order), and each HTTP handler as a pure function
from a database state to `Except HErr (state × response)`.  A Drizzle
`select ... where eq(..)` with `.limit(1)` (or `.get()`) becomes `List.find?`,
an `insert` appends to the row list, and an `update ... where` maps over the
row list.  A `db.transaction` body either finishes completely, producing the
new state, or throws, in which case the caller keeps the old state; the
`Except` result models exactly that all-or-nothing behaviour.  Timestamps are
naturals (milliseconds); identifiers generated by `randomUUIDv7`/`generateId`
are passed in as explicit arguments.
-/

namespace AiIntroServer

/-- Row of `question_set` (src/db/schemas/quiz.ts, questionSetTable). -/
structure QuestionSet where
  id : String
  name : String
  level : Nat
  description : Option String
  createdAt : Nat
  updatedAt : Nat
deriving Repr, DecidableEq

/-- Row of `question` (src/db/schemas/quiz.ts, questionTable). -/
structure Question where
  id : String
  questionSetId : String
  type : String
  content : String
  options : Option (List String)
  correctAnswer : String
  createdAt : Nat
deriving Repr, DecidableEq

/-- Row of `quiz_attempt` (src/db/schemas/quiz.ts, quizAttemptTable). -/
structure QuizAttempt where
  id : String
  userId : String
  questionSetId : String
  score : Nat
  totalQuestions : Nat
  startedAt : Nat
  completedAt : Option Nat
deriving Repr, DecidableEq

/-- Row of `quiz_answer` (src/db/schemas/quiz.ts, quizAnswerTable). -/
structure QuizAnswer where
  id : String
  quizAttemptId : String
  questionId : String
  userAnswer : String
  isCorrect : Bool
  answeredAt : Nat
deriving Repr, DecidableEq

/-- Row of `profile` (src/db/schemas/profile.ts, userProfileTable). -/
structure UserProfile where
  id : String
  userId : String
  createdAt : Nat
  updatedAt : Nat
  totalQuizzesTaken : Nat
  highestScore : Nat
deriving Repr, DecidableEq

/-- Row of `user` (src/db/schemas/auth.ts, userTable). -/
structure User where
  id : String
  username : String
  passwordHash : String
deriving Repr, DecidableEq

/-- Row of `chat_session` (src/db/schemas/chat.ts, chatSessionTable). -/
structure ChatSession where
  id : String
  userId : String
  createdAt : Nat
deriving Repr, DecidableEq

/-- Row of `chat_message` (src/db/schemas/chat.ts, chatMessageTable). -/
structure ChatMessage where
  id : String
  chatSessionId : String
  role : String
  content : String
  createdAt : Nat
deriving Repr, DecidableEq

/-- The relational store: one list of rows per table, in insertion order. -/
structure DB where
  users : List User
  questionSets : List QuestionSet
  questions : List Question
  attempts : List QuizAttempt
  answers : List QuizAnswer
  profiles : List UserProfile
  sessions : List ChatSession
  messages : List ChatMessage
deriving Repr, DecidableEq

/-- The empty database. -/
def emptyDB : DB :=
  { users := [], questionSets := [], questions := [], attempts := [],
    answers := [], profiles := [], sessions := [], messages := [] }

/-- Error taxonomy of the handlers: HTTPException with status 404, 403 or 500. -/
inductive HErr where
  | notFound (message : String)
  | forbidden (message : String)
  | internal (message : String)
deriving Repr, DecidableEq

/-- Runs a handler the way the HTTP layer does: a thrown exception leaves the
database untouched, a normal return installs the new state. -/
def runOp {α : Type} (db : DB) (r : Except HErr (DB × α)) : DB × Except HErr α :=
  match r with
  | .ok (db', a) => (db', .ok a)
  | .error e => (db, .error e)

/-- Response body of POST /quiz/:questionSetId/start. -/
structure StartData where
  attemptId : String
  totalQuestions : Nat
deriving Repr, DecidableEq

/-- Response body of POST /quiz/attempt/:attemptId/answer. -/
structure AnswerData where
  wasCorrect : Bool
  correctAnswer : String
deriving Repr, DecidableEq

/-- Response body of POST /quiz/attempt/:attemptId/complete. -/
structure CompleteData where
  attemptId : String
  score : Nat
  totalQuestions : Nat
  startedAt : Nat
  completedAt : Nat
deriving Repr, DecidableEq

/-- POST /quiz/:questionSetId/start (src/routes/quiz.ts).  Looks up the
question set, fetches the ids of its questions, rejects an empty set, and
inserts one QuizAttempt row.  Note: the source sets
`const totalQuestions = 10;` instead of `questions.length`. -/
def startAttempt (db : DB) (userId questionSetId attemptId : String) (now : Nat) :
    Except HErr (DB × StartData) :=
  match db.questionSets.find? (fun s => s.id == questionSetId) with
  | none => .error (.notFound "Question set not found")
  | some _ =>
    let questions := db.questions.filter (fun q => q.questionSetId == questionSetId)
    let totalQuestions := 10
    if questions.length == 0 then
      .error (.notFound "No questions found for this question set")
    else
      let newAttempt : QuizAttempt :=
        { id := attemptId, userId := userId, questionSetId := questionSetId,
          score := 0, totalQuestions := totalQuestions, startedAt := now,
          completedAt := none }
      .ok ({ db with attempts := db.attempts ++ [newAttempt] },
           { attemptId := attemptId, totalQuestions := totalQuestions })

/-- The correctness rule of POST /quiz/attempt/:attemptId/answer: start from
false and compare strings exactly only when the question type passes the
single_selection / true_false gate. -/
def isCorrectFor (question : Question) (userAnswer : String) : Bool :=
  (question.type == "single_selection" || question.type == "true_false")
    && userAnswer == question.correctAnswer

/-- POST /quiz/attempt/:attemptId/answer (src/routes/quiz.ts).  Checks, in
order: attempt exists and is owned by the caller; attempt not completed;
question exists; question belongs to the attempt set.  Then inserts one
QuizAnswer row and, when correct, bumps the attempt score, both inside one
transaction. -/
def submitAnswer (db : DB) (userId attemptId questionId userAnswer answerId : String)
    (now : Nat) : Except HErr (DB × AnswerData) :=
  match db.attempts.find? (fun a => a.id == attemptId && a.userId == userId) with
  | none => .error (.notFound "Quiz attempt not found or does not belong to user")
  | some quizAttempt =>
    if quizAttempt.completedAt.isSome then
      .error (.forbidden "Quiz attempt has already been completed")
    else
      match db.questions.find? (fun q => q.id == questionId) with
      | none => .error (.notFound "Question not found")
      | some question =>
        if question.questionSetId != quizAttempt.questionSetId then
          .error (.forbidden "Question does not belong to this quiz set")
        else
          let isCorrect := isCorrectFor question userAnswer
          let newAnswer : QuizAnswer :=
            { id := answerId, quizAttemptId := attemptId, questionId := questionId,
              userAnswer := userAnswer, isCorrect := isCorrect, answeredAt := now }
          let db1 := { db with answers := db.answers ++ [newAnswer] }
          let db2 :=
            if isCorrect then
              { db1 with attempts := db1.attempts.map (fun a =>
                  if a.id == attemptId then { a with score := quizAttempt.score + 1 }
                  else a) }
            else db1
          .ok (db2, { wasCorrect := isCorrect, correctAnswer := question.correctAnswer })

/-- POST /quiz/attempt/:attemptId/complete (src/routes/quiz.ts).  After the
ownership and not-yet-completed checks, a single transaction sets completedAt
and upserts the user profile: an existing profile gets totalQuizzesTaken + 1
and highestScore = max(old, score); an absent one is created with
totalQuizzesTaken = 1 and highestScore = score. -/
def completeAttempt (db : DB) (userId attemptId newProfileId : String) (now : Nat) :
    Except HErr (DB × CompleteData) :=
  match db.attempts.find? (fun a => a.id == attemptId && a.userId == userId) with
  | none => .error (.notFound "Quiz attempt not found or does not belong to user")
  | some quizAttempt =>
    if quizAttempt.completedAt.isSome then
      .error (.forbidden "Quiz attempt has already been completed")
    else
      let db1 := { db with attempts := db.attempts.map (fun a : QuizAttempt =>
          if a.id == attemptId then { a with completedAt := some now } else a) }
      let db2 :=
        match db1.profiles.find? (fun p => p.userId == userId) with
        | some userProfile =>
          { db1 with profiles := db1.profiles.map (fun p : UserProfile =>
              if p.userId == userId then
                { p with
                  totalQuizzesTaken := userProfile.totalQuizzesTaken + 1,
                  highestScore := max userProfile.highestScore quizAttempt.score }
              else p) }
        | none =>
          { db1 with profiles := db1.profiles ++
              [{ id := newProfileId, userId := userId, createdAt := now,
                 updatedAt := now, totalQuizzesTaken := 1,
                 highestScore := quizAttempt.score : UserProfile }] }
      .ok (db2,
           { attemptId := quizAttempt.id, score := quizAttempt.score,
             totalQuestions := quizAttempt.totalQuestions,
             startedAt := quizAttempt.startedAt, completedAt := now })

/-- POST /auth/signup (src/routes/auth.ts), success path: one transaction
inserts the user row and a profile row whose counters take the schema
defaults totalQuizzesTaken = 0 and highestScore = 0. -/
def signup (db : DB) (userId profileId username passwordHash : String) (now : Nat) : DB :=
  { db with
    users := db.users ++ [{ id := userId, username := username,
                            passwordHash := passwordHash }],
    profiles := db.profiles ++ [{ id := profileId, userId := userId,
                                  createdAt := now, updatedAt := now,
                                  totalQuizzesTaken := 0, highestScore := 0 }] }

/-- The question projection used by GET /quiz/sets/:questionSetId: every
column of `question` except `correctAnswer` (the select in the source lists
id, questionSetId, type, content, options, createdAt and deliberately
excludes correctAnswer). -/
structure QuestionView where
  id : String
  questionSetId : String
  type : String
  content : String
  options : Option (List String)
  createdAt : Nat
deriving Repr, DecidableEq

/-- The projection applied to each question row by the set-detail select. -/
def redactQuestion (q : Question) : QuestionView :=
  { id := q.id, questionSetId := q.questionSetId, type := q.type,
    content := q.content, options := q.options, createdAt := q.createdAt }

/-- GET /quiz/sets/:questionSetId (src/routes/quiz.ts): the set row plus its
questions under the `correctAnswer`-free projection. -/
def getQuestionSetDetail (db : DB) (questionSetId : String) :
    Except HErr (QuestionSet × List QuestionView) :=
  match db.questionSets.find? (fun s => s.id == questionSetId) with
  | none => .error (.notFound "Question set not found")
  | some questionSet =>
    .ok (questionSet,
      (db.questions.filter (fun q => q.questionSetId == questionSetId)).map
        redactQuestion)

/-- One row of the answers select of GET /quiz/attempts/:attemptId: the
answer joined (left join) with its question, `correctAnswer` included; the
question columns are `Option`s because a left join yields null when the
question row is gone. -/
structure AnswerView where
  questionId : String
  questionContent : Option String
  questionType : Option String
  questionOptions : Option (Option (List String))
  userAnswer : String
  isCorrect : Bool
  correctAnswer : Option String
  answeredAt : Nat
deriving Repr, DecidableEq

/-- The join of one quiz_answer row with the question table, as selected by
GET /quiz/attempts/:attemptId. -/
def answerView (db : DB) (ans : QuizAnswer) : AnswerView :=
  let q := db.questions.find? (fun q => q.id == ans.questionId)
  { questionId := ans.questionId,
    questionContent := q.map (fun q => q.content),
    questionType := q.map (fun q => q.type),
    questionOptions := q.map (fun q => q.options),
    userAnswer := ans.userAnswer,
    isCorrect := ans.isCorrect,
    correctAnswer := q.map (fun q => q.correctAnswer),
    answeredAt := ans.answeredAt }

/-- The attempt row of GET /quiz/attempts/:attemptId, left-joined with the
set name. -/
structure AttemptRow where
  id : String
  userId : String
  questionSetId : String
  questionSetName : Option String
  score : Nat
  totalQuestions : Nat
  startedAt : Nat
  completedAt : Option Nat
deriving Repr, DecidableEq

/-- The select projection for the attempt row of GET /quiz/attempts/:attemptId. -/
def attemptRow (db : DB) (a : QuizAttempt) : AttemptRow :=
  { id := a.id, userId := a.userId, questionSetId := a.questionSetId,
    questionSetName := (db.questionSets.find? (fun s => s.id == a.questionSetId)).map
      (fun s => s.name),
    score := a.score, totalQuestions := a.totalQuestions,
    startedAt := a.startedAt, completedAt := a.completedAt }

/-- Response body of GET /quiz/attempts/:attemptId.  The source forgets to
destructure the `.limit(1)` result, so `quizAttempt` is an array there; an
array is always truthy in JavaScript, hence the not-found branch is dead and
the handler always succeeds; `attemptRows` carries that array. -/
structure AttemptDetail where
  attemptRows : List AttemptRow
  answers : List AnswerView
deriving Repr, DecidableEq

/-- GET /quiz/attempts/:attemptId (src/routes/quiz.ts). -/
def getAttemptDetail (db : DB) (userId attemptId : String) : AttemptDetail :=
  let rows :=
    ((db.attempts.filter (fun a => a.id == attemptId && a.userId == userId)).take 1).map
      (attemptRow db)
  let answers :=
    (db.answers.filter (fun ans => ans.quizAttemptId == attemptId)).map (answerView db)
  { attemptRows := rows, answers := answers }

/-- One choice of the provider response; its `message` field is the message
object as the string JavaScript renders it to when `Array.prototype.join`
stringifies the array elements. -/
structure CompletionChoice where
  message : String
deriving Repr, DecidableEq

/-- The provider response used by POST /chat/completions: id (session key),
created (seconds), choices. -/
structure OpenAiChatCompletions where
  id : String
  created : Nat
  choices : List CompletionChoice
deriving Repr, DecidableEq

/-- A chat request or reply body: role and content. -/
structure ChatMessageData where
  role : String
  content : String
deriving Repr, DecidableEq

/-- POST /chat/completions (src/routes/chat.ts).  `providerResult = none`
models a failed outbound call (the code then throws 500 before any insert);
on success one transaction inserts the session row keyed by the provider id
with createdAt = provider `created * 1000`, the user message stamped with the
server receipt time, and the assistant message stamped with the provider
time.  `Array.prototype.join` with no argument joins with a comma. -/
def postCompletion (db : DB) (userId : String) (msg : ChatMessageData)
    (serverReceivedTimestamp : Nat) (providerResult : Option OpenAiChatCompletions)
    (userMsgId llmMsgId : String) : Except HErr (DB × ChatMessageData) :=
  match providerResult with
  | none => .error (.internal "An unexpected error occurred while processing your request.")
  | some res =>
    let chatSession : ChatSession :=
      { id := res.id, userId := userId, createdAt := res.created * 1000 }
    let chatMessageFromUser : ChatMessage :=
      { id := userMsgId, chatSessionId := res.id, role := msg.role,
        content := msg.content, createdAt := serverReceivedTimestamp }
    let completions := String.intercalate "," (res.choices.map (fun c => c.message))
    let chatMessageFromLlm : ChatMessage :=
      { id := llmMsgId, chatSessionId := res.id, role := "assistant",
        content := completions, createdAt := res.created * 1000 }
    .ok ({ db with
            sessions := db.sessions ++ [chatSession],
            messages := db.messages ++ [chatMessageFromUser, chatMessageFromLlm] },
         { role := "assistant", content := completions })

/-- One item of the GET /chat/history response. -/
structure ChatHistoryItem where
  id : String
  role : String
  content : String
  createdAt : Nat
deriving Repr, DecidableEq

/-- Stable insertion into a list sorted by createdAt ascending. -/
def insertByCreatedAt (m : ChatMessage) : List ChatMessage → List ChatMessage
  | [] => [m]
  | x :: xs => if m.createdAt < x.createdAt then m :: x :: xs
               else x :: insertByCreatedAt m xs

/-- Stable sort by createdAt ascending, modelling `ORDER BY created_at`. -/
def orderByCreatedAt : List ChatMessage → List ChatMessage
  | [] => []
  | x :: xs => insertByCreatedAt x (orderByCreatedAt xs)

/-- GET /chat/history (src/routes/chat.ts): collect the ids of the caller
sessions, return [] when there are none, otherwise select all messages whose
chatSessionId is in that list, ordered by createdAt, and project each row to
(id := chatSessionId, role, content, createdAt). -/
def getHistory (db : DB) (userId : String) : List ChatHistoryItem :=
  let sessionIds := (db.sessions.filter (fun s => s.userId == userId)).map (fun s => s.id)
  if sessionIds.length == 0 then []
  else
    let messages :=
      orderByCreatedAt (db.messages.filter (fun m => sessionIds.contains m.chatSessionId))
    messages.map (fun item =>
      { id := item.chatSessionId, role := item.role, content := item.content,
        createdAt := item.createdAt })

/-- Entry of a batch-completion scenario: the attempt to complete, the fresh
profile id the handler would generate, and the score the attempt carries. -/
structure CompletionInput where
  aid : String
  pid : String
  score : Nat
deriving Repr, DecidableEq

/-- Scenario driver: complete the listed attempts one HTTP call after the
other, stopping at the first error. -/
def completeMany (u : String) : List CompletionInput → DB → Except HErr DB
  | [], db => .ok db
  | e :: rest, db =>
    match completeAttempt db u e.aid e.pid 0 with
    | .error err => .error err
    | .ok (db', _) => completeMany u rest db'

/-- Scenario driver: submit the same answer to the same question repeatedly,
one HTTP call per answer id in the list. -/
def submitRepeatedly (u aid qid ans : String) : List String → DB → Except HErr DB
  | [], db => .ok db
  | answerId :: rest, db =>
    match submitAnswer db u aid qid ans answerId 0 with
    | .error err => .error err
    | .ok (db', _) => submitRepeatedly u aid qid ans rest db'

/-! Helper lemmas about `find?` commuting with the row-update maps that model
SQL `UPDATE ... WHERE`. -/

/-- When a map does not change the truth of the predicate, it commutes with
`find?`. -/
theorem find?_map_pres {α : Type} (f : α → α) (p : α → Bool)
    (hp : ∀ a, p (f a) = p a) (l : List α) :
    (l.map f).find? p = (l.find? p).map f := by
  rw [List.find?_map]
  have h : p ∘ f = p := funext hp
  rw [h]

/-- The score-update map of submitAnswer, seen through the ownership
predicate of a later lookup of the same attempt. -/
theorem find?_attempts_score_bump (l : List QuizAttempt) (aid u : String)
    (att : QuizAttempt) (n : Nat)
    (hatt : l.find? (fun a => a.id == aid && a.userId == u) = some att) :
    (l.map (fun a : QuizAttempt =>
        if a.id == aid then { a with score := n } else a)).find?
        (fun a => a.id == aid && a.userId == u) =
      some { att with score := n } := by
  rw [find?_map_pres]
  · have h1 := List.find?_some hatt
    rw [Bool.and_eq_true] at h1
    have hid : (att.id == aid) = true := h1.1
    rw [hatt]
    simp [Option.map, hid]
  · intro a
    by_cases h : (a.id == aid) = true
    · simp [h]
    · simp [h]

/-- The completedAt-update map of completeAttempt, seen through the ownership
predicate of a later lookup of the same attempt. -/
theorem find?_attempts_completed_bump (l : List QuizAttempt) (aid u : String)
    (att : QuizAttempt) (t : Nat)
    (hatt : l.find? (fun a => a.id == aid && a.userId == u) = some att) :
    (l.map (fun a : QuizAttempt =>
        if a.id == aid then { a with completedAt := some t } else a)).find?
        (fun a => a.id == aid && a.userId == u) =
      some { att with completedAt := some t } := by
  rw [find?_map_pres]
  · have h1 := List.find?_some hatt
    rw [Bool.and_eq_true] at h1
    have hid : (att.id == aid) = true := h1.1
    rw [hatt]
    simp [Option.map, hid]
  · intro a
    by_cases h : (a.id == aid) = true
    · simp [h]
    · simp [h]

/-- The completedAt-update map of completeAttempt leaves the lookup of any
attempt with a different id untouched. -/
theorem find?_attempts_completed_other (l : List QuizAttempt) (aid aid' u : String)
    (t : Nat) (hne : aid' ≠ aid) :
    (l.map (fun a : QuizAttempt =>
        if a.id == aid then { a with completedAt := some t } else a)).find?
        (fun a => a.id == aid' && a.userId == u) =
      l.find? (fun a => a.id == aid' && a.userId == u) := by
  rw [find?_map_pres]
  · cases h : l.find? (fun a => a.id == aid' && a.userId == u) with
    | none => rfl
    | some a =>
      have h1 := List.find?_some h
      rw [Bool.and_eq_true] at h1
      have hid : a.id = aid' := by
        simpa using h1.1
      have hnid : (a.id == aid) = false := by
        simp [hid, hne]
      simp [Option.map, hnid]
  · intro a
    by_cases h : (a.id == aid) = true
    · simp [h]
    · simp [h]

/-- The profile-update map of completeAttempt, seen through a later lookup of
the same user profile. -/
theorem find?_profiles_update (l : List UserProfile) (u : String) (p : UserProfile)
    (t h : Nat)
    (hp : l.find? (fun x => x.userId == u) = some p) :
    (l.map (fun x : UserProfile =>
        if x.userId == u then { x with totalQuizzesTaken := t, highestScore := h }
        else x)).find?
        (fun x => x.userId == u) =
      some { p with totalQuizzesTaken := t, highestScore := h } := by
  rw [find?_map_pres]
  · have h1 := List.find?_some hp
    rw [hp]
    simp [Option.map, h1]
  · intro a
    by_cases hh : (a.userId == u) = true
    · simp [hh]
    · simp [hh]

/-- Looking a profile up right after it was appended to a list that had none. -/
theorem find?_profiles_append (l : List UserProfile) (u : String) (p : UserProfile)
    (hnone : l.find? (fun x => x.userId == u) = none) (hu : p.userId = u) :
    (l ++ [p]).find? (fun x => x.userId == u) = some p := by
  rw [List.find?_append, hnone]
  simp [List.find?, hu]

/-- The single success step of submitAnswer when the submitted answer is
correct: the new QuizAnswer row is appended and the attempt score becomes the
snapshot score plus one. -/
theorem submitAnswer_eq_ok_correct (db : DB) (u aid qid ans ansId : String) (now : Nat)
    (att : QuizAttempt) (q : Question)
    (hatt : db.attempts.find? (fun a => a.id == aid && a.userId == u) = some att)
    (hprog : att.completedAt = none)
    (hq : db.questions.find? (fun x => x.id == qid) = some q)
    (hset : q.questionSetId = att.questionSetId)
    (hc : isCorrectFor q ans = true) :
    submitAnswer db u aid qid ans ansId now =
      .ok ({ db with
              answers := db.answers ++
                [{ id := ansId, quizAttemptId := aid, questionId := qid,
                   userAnswer := ans, isCorrect := true, answeredAt := now }],
              attempts := db.attempts.map (fun a : QuizAttempt =>
                if a.id == aid then { a with score := att.score + 1 } else a) },
           { wasCorrect := true, correctAnswer := q.correctAnswer }) := by
  simp only [submitAnswer, hatt, hq, hprog, hset]
  simp [hc]

/-- The single success step of submitAnswer when the submitted answer is
wrong: the new QuizAnswer row is appended and nothing else changes. -/
theorem submitAnswer_eq_ok_incorrect (db : DB) (u aid qid ans ansId : String) (now : Nat)
    (att : QuizAttempt) (q : Question)
    (hatt : db.attempts.find? (fun a => a.id == aid && a.userId == u) = some att)
    (hprog : att.completedAt = none)
    (hq : db.questions.find? (fun x => x.id == qid) = some q)
    (hset : q.questionSetId = att.questionSetId)
    (hc : isCorrectFor q ans = false) :
    submitAnswer db u aid qid ans ansId now =
      .ok ({ db with
              answers := db.answers ++
                [{ id := ansId, quizAttemptId := aid, questionId := qid,
                   userAnswer := ans, isCorrect := false, answeredAt := now }] },
           { wasCorrect := false, correctAnswer := q.correctAnswer }) := by
  simp only [submitAnswer, hatt, hq, hprog, hset]
  simp [hc]

/-! Concrete sample data, mirroring the seed of the integration tests: one
question set with a true_false and a single_selection question. -/

/-- Sample question set. -/
def set1 : QuestionSet :=
  { id := "set1", name := "Math Basics", level := 0,
    description := some "Basic arithmetic questions", createdAt := 0, updatedAt := 0 }

/-- Sample true_false question. -/
def q1 : Question :=
  { id := "q1", questionSetId := "set1", type := "true_false",
    content := "2 + 2 = 4?", options := none, correctAnswer := "true", createdAt := 0 }

/-- Sample single_selection question. -/
def q2 : Question :=
  { id := "q2", questionSetId := "set1", type := "single_selection",
    content := "What is 10 / 2?", options := some ["2", "5", "8", "10"],
    correctAnswer := "5", createdAt := 0 }

/-- A database holding the sample set with its two questions. -/
def twoQuestionDB : DB := { emptyDB with questionSets := [set1], questions := [q1, q2] }

/-- A fresh in-progress attempt on the sample set. -/
def attempt1 : QuizAttempt :=
  { id := "att1", userId := "user1", questionSetId := "set1", score := 0,
    totalQuestions := 10, startedAt := 5, completedAt := none }

/-- The sample database with the fresh attempt. -/
def quizDB : DB := { twoQuestionDB with attempts := [attempt1] }

/-- The sample attempt after completion. -/
def completedAttempt1 : QuizAttempt := { attempt1 with completedAt := some 9 }

/-- The sample database with the attempt already completed. -/
def completedDB : DB := { quizDB with attempts := [completedAttempt1] }

/-- A question that belongs to a different set than the sample attempt. -/
def q3 : Question :=
  { id := "q3", questionSetId := "set2", type := "true_false",
    content := "another set", options := none, correctAnswer := "false", createdAt := 0 }

/-- The sample database with the cross-set question added. -/
def crossSetDB : DB := { quizDB with questions := [q1, q2, q3] }

/-- C1: the claim says the created QuizAttempt stores totalQuestions equal to
the number of questions of the set and that this count is returned.  The code
instead hardcodes `const totalQuestions = 10`: on the sample set with exactly
2 questions, startAttempt creates one attempt row with score = 0 and
completedAt = null as claimed, but stores and returns totalQuestions = 10,
not 2 — contradicting the claim, the spec and the repository's own
integration test, which expects 2 for this seed. -/
theorem startAttempt_stores_hardcoded_ten :
    (twoQuestionDB.questions.filter (fun q => q.questionSetId == "set1")).length = 2 ∧
    startAttempt twoQuestionDB "user1" "set1" "att1" 5 =
      .ok ({ twoQuestionDB with attempts := [attempt1] },
           { attemptId := "att1", totalQuestions := 10 }) ∧
    attempt1.totalQuestions = 10 ∧ attempt1.totalQuestions ≠ 2 ∧
    attempt1.score = 0 ∧ attempt1.completedAt = none := by
  refine ⟨by decide, ?_, by decide, by decide, by decide, by decide⟩
  rfl

/-- C4: on a valid submission against an owned in-progress attempt whose
question belongs to the attempt set, wasCorrect holds exactly when the
submitted string equals correctAnswer and the question type is
single_selection or true_false; a correct submission bumps the attempt score
by exactly one, an incorrect one leaves the attempts table unchanged, and in
both cases exactly one QuizAnswer row is appended. -/
theorem submitAnswer_scoring (db : DB) (u aid qid ans ansId : String) (now : Nat)
    (att : QuizAttempt) (q : Question)
    (hatt : db.attempts.find? (fun a => a.id == aid && a.userId == u) = some att)
    (hprog : att.completedAt = none)
    (hq : db.questions.find? (fun x => x.id == qid) = some q)
    (hset : q.questionSetId = att.questionSetId) :
    ∃ db2 resp,
      submitAnswer db u aid qid ans ansId now = .ok (db2, resp) ∧
      (resp.wasCorrect = true ↔
        (ans = q.correctAnswer ∧
          (q.type = "single_selection" ∨ q.type = "true_false"))) ∧
      resp.correctAnswer = q.correctAnswer ∧
      db2.answers = db.answers ++
        [{ id := ansId, quizAttemptId := aid, questionId := qid,
           userAnswer := ans, isCorrect := resp.wasCorrect, answeredAt := now }] ∧
      (resp.wasCorrect = true →
        db2.attempts.find? (fun a => a.id == aid && a.userId == u) =
          some { att with score := att.score + 1 }) ∧
      (resp.wasCorrect = false → db2.attempts = db.attempts) := by
  by_cases hc : isCorrectFor q ans = true
  · refine ⟨_, _,
      submitAnswer_eq_ok_correct db u aid qid ans ansId now att q hatt hprog hq hset hc,
      ?_, rfl, rfl, ?_, ?_⟩
    · simp only [isCorrectFor, Bool.and_eq_true, Bool.or_eq_true, beq_iff_eq] at hc
      simp [hc.1, hc.2]
    · intro _
      exact find?_attempts_score_bump db.attempts aid u att (att.score + 1) hatt
    · intro h
      simp at h
  · have hc' : isCorrectFor q ans = false := by
      cases h : isCorrectFor q ans
      · rfl
      · exact absurd h hc
    refine ⟨_, _,
      submitAnswer_eq_ok_incorrect db u aid qid ans ansId now att q hatt hprog hq hset hc',
      ?_, rfl, rfl, ?_, ?_⟩
    · simp only [isCorrectFor, Bool.and_eq_true, Bool.or_eq_true, beq_iff_eq] at hc
      constructor
      · intro h
        simp at h
      · intro h
        exact absurd ⟨h.2, h.1⟩ hc
    · intro h
      simp at h
    · intro _
      rfl

/-- C4 witness: a concrete correct submission on the sample database. -/
theorem submitAnswer_scoring_witness :
    ∃ db2 resp,
      submitAnswer quizDB "user1" "att1" "q1" "true" "ans1" 7 = .ok (db2, resp) ∧
      (resp.wasCorrect = true ↔
        ("true" = q1.correctAnswer ∧
          (q1.type = "single_selection" ∨ q1.type = "true_false"))) ∧
      resp.correctAnswer = q1.correctAnswer ∧
      db2.answers = quizDB.answers ++
        [{ id := "ans1", quizAttemptId := "att1", questionId := "q1",
           userAnswer := "true", isCorrect := resp.wasCorrect, answeredAt := 7 }] ∧
      (resp.wasCorrect = true →
        db2.attempts.find? (fun a => a.id == "att1" && a.userId == "user1") =
          some { attempt1 with score := attempt1.score + 1 }) ∧
      (resp.wasCorrect = false → db2.attempts = quizDB.attempts) :=
  submitAnswer_scoring quizDB "user1" "att1" "q1" "true" "ans1" 7 attempt1 q1
    (by decide) (by decide) (by decide) (by decide)

/-- C7: the four submitAnswer guards fire in their source order, each with its
own distinct error — a missing attempt and an attempt owned by someone else
produce the same NotFound; a completed attempt produces Forbidden before the
question is even looked at; a missing question produces NotFound; a cross-set
question produces Forbidden — and every failing call returns the database
unchanged, so no QuizAnswer row is written and no score changes. -/
theorem submitAnswer_guard_order (db : DB) (u aid qid ans ansId : String) (now : Nat) :
    (db.attempts.find? (fun a => a.id == aid && a.userId == u) = none →
      runOp db (submitAnswer db u aid qid ans ansId now) =
        (db, .error (.notFound "Quiz attempt not found or does not belong to user"))) ∧
    (∀ att t, db.attempts.find? (fun a => a.id == aid && a.userId == u) = some att →
      att.completedAt = some t →
      runOp db (submitAnswer db u aid qid ans ansId now) =
        (db, .error (.forbidden "Quiz attempt has already been completed"))) ∧
    (∀ att, db.attempts.find? (fun a => a.id == aid && a.userId == u) = some att →
      att.completedAt = none →
      db.questions.find? (fun x => x.id == qid) = none →
      runOp db (submitAnswer db u aid qid ans ansId now) =
        (db, .error (.notFound "Question not found"))) ∧
    (∀ att q, db.attempts.find? (fun a => a.id == aid && a.userId == u) = some att →
      att.completedAt = none →
      db.questions.find? (fun x => x.id == qid) = some q →
      q.questionSetId ≠ att.questionSetId →
      runOp db (submitAnswer db u aid qid ans ansId now) =
        (db, .error (.forbidden "Question does not belong to this quiz set"))) := by
  refine ⟨?_, ?_, ?_, ?_⟩
  · intro hnone
    simp [runOp, submitAnswer, hnone]
  · intro att t hatt hdone
    simp [runOp, submitAnswer, hatt, hdone]
  · intro att hatt hprog hqnone
    simp [runOp, submitAnswer, hatt, hprog, hqnone]
  · intro att q hatt hprog hq hne
    simp [runOp, submitAnswer, hatt, hprog, hq, bne_iff_ne, hne]

/-- C7 witness: the four failures on concrete databases — an attempt owned by
another user, a completed attempt, a missing question, a cross-set question.
Each call returns its distinct error and the untouched database. -/
theorem submitAnswer_guard_order_witness :
    runOp quizDB (submitAnswer quizDB "user2" "att1" "q1" "true" "a1" 0) =
      (quizDB, .error (.notFound "Quiz attempt not found or does not belong to user")) ∧
    runOp completedDB (submitAnswer completedDB "user1" "att1" "q1" "true" "a1" 0) =
      (completedDB, .error (.forbidden "Quiz attempt has already been completed")) ∧
    runOp quizDB (submitAnswer quizDB "user1" "att1" "missing" "true" "a1" 0) =
      (quizDB, .error (.notFound "Question not found")) ∧
    runOp crossSetDB (submitAnswer crossSetDB "user1" "att1" "q3" "false" "a1" 0) =
      (crossSetDB, .error (.forbidden "Question does not belong to this quiz set")) :=
  ⟨(submitAnswer_guard_order quizDB "user2" "att1" "q1" "true" "a1" 0).1 (by decide),
   (submitAnswer_guard_order completedDB "user1" "att1" "q1" "true" "a1" 0).2.1
     completedAttempt1 9 (by decide) (by decide),
   (submitAnswer_guard_order quizDB "user1" "att1" "missing" "true" "a1" 0).2.2.1
     attempt1 (by decide) (by decide) (by decide),
   (submitAnswer_guard_order crossSetDB "user1" "att1" "q3" "false" "a1" 0).2.2.2
     attempt1 q3 (by decide) (by decide) (by decide) (by decide)⟩

/-- The single success step of completeAttempt when the user already has a
profile: completedAt is set and the profile row is updated in place, both in
the same transaction. -/
theorem completeAttempt_eq_ok_present (db : DB) (u aid pid : String) (now : Nat)
    (att : QuizAttempt) (p : UserProfile)
    (hatt : db.attempts.find? (fun a => a.id == aid && a.userId == u) = some att)
    (hprog : att.completedAt = none)
    (hp : db.profiles.find? (fun x => x.userId == u) = some p) :
    completeAttempt db u aid pid now =
      .ok ({ db with
              attempts := db.attempts.map (fun a : QuizAttempt =>
                if a.id == aid then { a with completedAt := some now } else a),
              profiles := db.profiles.map (fun x : UserProfile =>
                if x.userId == u then
                  { x with totalQuizzesTaken := p.totalQuizzesTaken + 1,
                           highestScore := max p.highestScore att.score }
                else x) },
           { attemptId := att.id, score := att.score,
             totalQuestions := att.totalQuestions, startedAt := att.startedAt,
             completedAt := now }) := by
  simp only [completeAttempt, hatt, hprog]
  simp [hp]

/-- The single success step of completeAttempt when the user has no profile
yet: completedAt is set and a fresh profile row with totalQuizzesTaken = 1
and highestScore = score is inserted, both in the same transaction. -/
theorem completeAttempt_eq_ok_absent (db : DB) (u aid pid : String) (now : Nat)
    (att : QuizAttempt)
    (hatt : db.attempts.find? (fun a => a.id == aid && a.userId == u) = some att)
    (hprog : att.completedAt = none)
    (hp : db.profiles.find? (fun x => x.userId == u) = none) :
    completeAttempt db u aid pid now =
      .ok ({ db with
              attempts := db.attempts.map (fun a : QuizAttempt =>
                if a.id == aid then { a with completedAt := some now } else a),
              profiles := db.profiles ++
                [{ id := pid, userId := u, createdAt := now, updatedAt := now,
                   totalQuizzesTaken := 1, highestScore := att.score }] },
           { attemptId := att.id, score := att.score,
             totalQuestions := att.totalQuestions, startedAt := att.startedAt,
             completedAt := now }) := by
  simp only [completeAttempt, hatt, hprog]
  simp [hp]

/-- A completeAttempt call on an attempt whose completedAt is set fails
Forbidden and leaves the database unchanged. -/
theorem completeAttempt_completed_forbidden (db : DB) (u aid pid : String) (now : Nat)
    (att : QuizAttempt) (t : Nat)
    (hatt : db.attempts.find? (fun a => a.id == aid && a.userId == u) = some att)
    (hdone : att.completedAt = some t) :
    runOp db (completeAttempt db u aid pid now) =
      (db, .error (.forbidden "Quiz attempt has already been completed")) := by
  simp [runOp, completeAttempt, hatt, hdone]

/-- C5: completing an owned in-progress attempt sets completedAt and applies
the profile update in the same all-or-nothing transition, and a second
completeAttempt on the already-completed attempt fails Forbidden, returning
the database — attempt and UserProfile included — unchanged, so the profile
is updated exactly once per real completion. -/
theorem completeAttempt_atomic_once (db : DB) (u aid pid pid2 : String)
    (now now2 : Nat) (att : QuizAttempt)
    (hatt : db.attempts.find? (fun a => a.id == aid && a.userId == u) = some att)
    (hprog : att.completedAt = none) :
    ∃ db' resp, completeAttempt db u aid pid now = .ok (db', resp) ∧
      db'.attempts.find? (fun a => a.id == aid && a.userId == u) =
        some { att with completedAt := some now } ∧
      ((∃ p, db.profiles.find? (fun x => x.userId == u) = some p ∧
          db'.profiles.find? (fun x => x.userId == u) =
            some { p with totalQuizzesTaken := p.totalQuizzesTaken + 1,
                          highestScore := max p.highestScore att.score }) ∨
       (db.profiles.find? (fun x => x.userId == u) = none ∧
          db'.profiles.find? (fun x => x.userId == u) =
            some { id := pid, userId := u, createdAt := now, updatedAt := now,
                   totalQuizzesTaken := 1, highestScore := att.score })) ∧
      runOp db' (completeAttempt db' u aid pid2 now2) =
        (db', .error (.forbidden "Quiz attempt has already been completed")) := by
  cases hp : db.profiles.find? (fun x => x.userId == u) with
  | some p =>
    have hbump := find?_attempts_completed_bump db.attempts aid u att now hatt
    refine ⟨_, _, completeAttempt_eq_ok_present db u aid pid now att p hatt hprog hp,
      hbump, ?_, ?_⟩
    · exact Or.inl ⟨p, rfl, find?_profiles_update db.profiles u p _ _ hp⟩
    · exact completeAttempt_completed_forbidden _ u aid pid2 now2 _ now hbump rfl
  | none =>
    have hbump := find?_attempts_completed_bump db.attempts aid u att now hatt
    refine ⟨_, _, completeAttempt_eq_ok_absent db u aid pid now att hatt hprog hp,
      hbump, ?_, ?_⟩
    · refine Or.inr ⟨rfl, ?_⟩
      exact find?_profiles_append db.profiles u _ hp rfl
    · exact completeAttempt_completed_forbidden _ u aid pid2 now2 _ now hbump rfl

/-- C5 witness: completing the sample in-progress attempt, then trying again. -/
theorem completeAttempt_atomic_once_witness :
    ∃ db' resp, completeAttempt quizDB "user1" "att1" "prof1" 9 = .ok (db', resp) ∧
      db'.attempts.find? (fun a => a.id == "att1" && a.userId == "user1") =
        some { attempt1 with completedAt := some 9 } ∧
      ((∃ p, quizDB.profiles.find? (fun x => x.userId == "user1") = some p ∧
          db'.profiles.find? (fun x => x.userId == "user1") =
            some { p with totalQuizzesTaken := p.totalQuizzesTaken + 1,
                          highestScore := max p.highestScore attempt1.score }) ∨
       (quizDB.profiles.find? (fun x => x.userId == "user1") = none ∧
          db'.profiles.find? (fun x => x.userId == "user1") =
            some { id := "prof1", userId := "user1", createdAt := 9, updatedAt := 9,
                   totalQuizzesTaken := 1, highestScore := attempt1.score })) ∧
      runOp db' (completeAttempt db' "user1" "att1" "prof2" 11) =
        (db', .error (.forbidden "Quiz attempt has already been completed")) :=
  completeAttempt_atomic_once quizDB "user1" "att1" "prof1" "prof2" 9 11 attempt1
    (by decide) (by decide)

/-- C2 counterexample: signup — an operation other than attempt completion —
creates a UserProfile row (with the schema-default counters) although no
attempt was ever completed, so the profile is not created lazily on the first
completed attempt. -/
theorem signup_creates_profile :
    (signup emptyDB "u1" "prof1" "alice" "hash" 0).profiles =
      [{ id := "prof1", userId := "u1", createdAt := 0, updatedAt := 0,
         totalQuizzesTaken := 0, highestScore := 0 }] ∧
    (signup emptyDB "u1" "prof1" "alice" "hash" 0).profiles ≠ [] ∧
    (signup emptyDB "u1" "prof1" "alice" "hash" 0).attempts = [] := by
  exact ⟨rfl, by decide, rfl⟩

/-- C2 amended: the UserProfile row is created eagerly at signup, inside the
signup transaction, with the schema-default counters; completeAttempt creates
a profile only if none exists, and when one exists each completion updates
the existing row in place — the row count does not change, so the row is
never replaced — and no other part of completion touches it. -/
theorem userProfile_eager_creation_inplace_update (db : DB)
    (uid pid uname hash aid newPid : String) (now : Nat)
    (att : QuizAttempt) (p : UserProfile)
    (hatt : db.attempts.find? (fun a => a.id == aid && a.userId == uid) = some att)
    (hprog : att.completedAt = none)
    (hp : db.profiles.find? (fun x => x.userId == uid) = some p) :
    (signup db uid pid uname hash now).profiles =
      db.profiles ++ [{ id := pid, userId := uid, createdAt := now, updatedAt := now,
                        totalQuizzesTaken := 0, highestScore := 0 }] ∧
    ∃ db' resp, completeAttempt db uid aid newPid now = .ok (db', resp) ∧
      db'.profiles.length = db.profiles.length ∧
      db'.profiles.find? (fun x => x.userId == uid) =
        some { p with totalQuizzesTaken := p.totalQuizzesTaken + 1,
                      highestScore := max p.highestScore att.score } := by
  refine ⟨rfl, _, _,
    completeAttempt_eq_ok_present db uid aid newPid now att p hatt hprog hp, ?_, ?_⟩
  · simp
  · exact find?_profiles_update db.profiles uid p _ _ hp

/-- The sample profile row created at signup time. -/
def profile1 : UserProfile :=
  { id := "prof1", userId := "user1", createdAt := 0, updatedAt := 0,
    totalQuizzesTaken := 0, highestScore := 0 }

/-- The sample database with a signup-created profile for user1. -/
def profileDB : DB := { quizDB with profiles := [profile1] }

/-- C2 witness: signup appends the default profile and a completion updates
the existing sample profile in place. -/
theorem userProfile_eager_creation_inplace_update_witness :
    (signup profileDB "user1" "prof9" "alice" "hash" 3).profiles =
      profileDB.profiles ++
        [{ id := "prof9", userId := "user1", createdAt := 3, updatedAt := 3,
           totalQuizzesTaken := 0, highestScore := 0 }] ∧
    ∃ db' resp, completeAttempt profileDB "user1" "att1" "profX" 3 = .ok (db', resp) ∧
      db'.profiles.length = profileDB.profiles.length ∧
      db'.profiles.find? (fun x => x.userId == "user1") =
        some { profile1 with totalQuizzesTaken := profile1.totalQuizzesTaken + 1,
                             highestScore := max profile1.highestScore attempt1.score } :=
  userProfile_eager_creation_inplace_update profileDB "user1" "prof9" "alice" "hash"
    "att1" "profX" 3 attempt1 profile1 (by decide) (by decide) (by decide)

/-- Iterating correct submissions for one question of one in-progress
attempt: every call succeeds, appends one QuizAnswer row, and bumps the score
of the attempt by one more. -/
theorem submitRepeatedly_ok (u aid qid : String) (q : Question)
    (hgate : q.type = "single_selection" ∨ q.type = "true_false") :
    ∀ (ids : List String) (db : DB) (att : QuizAttempt),
      db.attempts.find? (fun a => a.id == aid && a.userId == u) = some att →
      att.completedAt = none →
      db.questions.find? (fun x => x.id == qid) = some q →
      q.questionSetId = att.questionSetId →
      ∃ db', submitRepeatedly u aid qid q.correctAnswer ids db = .ok db' ∧
        db'.answers.length = db.answers.length + ids.length ∧
        db'.attempts.find? (fun a => a.id == aid && a.userId == u) =
          some { att with score := att.score + ids.length }
  | [], db, att, hatt, _, _, _ => by
    refine ⟨db, rfl, by simp, ?_⟩
    simpa using hatt
  | i :: ids, db, att, hatt, hprog, hq, hset => by
    have hc : isCorrectFor q q.correctAnswer = true := by
      rcases hgate with h | h <;> simp [isCorrectFor, h]
    have hstep :=
      submitAnswer_eq_ok_correct db u aid qid q.correctAnswer i 0 att q hatt hprog hq hset hc
    have hatt1 := find?_attempts_score_bump db.attempts aid u att (att.score + 1) hatt
    obtain ⟨db', hrun, hlen, hfind⟩ :=
      submitRepeatedly_ok u aid qid q hgate ids
        { db with
          answers := db.answers ++
            [{ id := i, quizAttemptId := aid, questionId := qid,
               userAnswer := q.correctAnswer, isCorrect := true, answeredAt := 0 }],
          attempts := db.attempts.map (fun a : QuizAttempt =>
            if a.id == aid then { a with score := att.score + 1 } else a) }
        { att with score := att.score + 1 } hatt1 hprog hq hset
    refine ⟨db', ?_, ?_, ?_⟩
    · simp only [submitRepeatedly, hstep]
      exact hrun
    · simp only [List.length_append, List.length_cons, List.length_nil] at hlen ⊢
      omega
    · simp only [List.length_cons]
      rw [show att.score + (ids.length + 1) = att.score + 1 + ids.length by omega]
      exact hfind

/-- C3: nothing caps repeated submissions for the same question within one
in-progress attempt — each submission appends a new QuizAnswer row and a
correct one increments score again, so a sequence of correct submissions
longer than totalQuestions leaves the attempt with score strictly above
totalQuestions. -/
theorem submitAnswer_score_exceeds_total (db : DB) (u aid qid : String)
    (att : QuizAttempt) (q : Question) (ids : List String)
    (hatt : db.attempts.find? (fun a => a.id == aid && a.userId == u) = some att)
    (hprog : att.completedAt = none)
    (hq : db.questions.find? (fun x => x.id == qid) = some q)
    (hset : q.questionSetId = att.questionSetId)
    (hgate : q.type = "single_selection" ∨ q.type = "true_false")
    (hlen : att.totalQuestions < ids.length) :
    ∃ db', submitRepeatedly u aid qid q.correctAnswer ids db = .ok db' ∧
      db'.answers.length = db.answers.length + ids.length ∧
      ∃ a', db'.attempts.find? (fun a => a.id == aid && a.userId == u) = some a' ∧
        a'.score = att.score + ids.length ∧
        a'.totalQuestions = att.totalQuestions ∧
        a'.totalQuestions < a'.score := by
  obtain ⟨db', hrun, hlen', hfind⟩ :=
    submitRepeatedly_ok u aid qid q hgate ids db att hatt hprog hq hset
  exact ⟨db', hrun, hlen', _, hfind, rfl, rfl, by simpa using Nat.lt_of_lt_of_le hlen (Nat.le_add_left _ _)⟩

/-- C3 witness: eleven correct submissions on the sample attempt, whose
totalQuestions is 10, leave it with score 11 greater than totalQuestions. -/
theorem submitAnswer_score_exceeds_total_witness :
    ∃ db', submitRepeatedly "user1" "att1" "q1" q1.correctAnswer
        ["i1", "i2", "i3", "i4", "i5", "i6", "i7", "i8", "i9", "i10", "i11"] quizDB =
          .ok db' ∧
      db'.answers.length = quizDB.answers.length + 11 ∧
      ∃ a', db'.attempts.find? (fun a => a.id == "att1" && a.userId == "user1") = some a' ∧
        a'.score = attempt1.score + 11 ∧
        a'.totalQuestions = attempt1.totalQuestions ∧
        a'.totalQuestions < a'.score :=
  submitAnswer_score_exceeds_total quizDB "user1" "att1" "q1" attempt1 q1
    ["i1", "i2", "i3", "i4", "i5", "i6", "i7", "i8", "i9", "i10", "i11"]
    (by decide) (by decide) (by decide) (by decide) (Or.inr rfl) (by decide)

/-- Folding max over a list is invariant under permutation. -/
theorem foldl_max_perm : ∀ {l₁ l₂ : List Nat}, l₁.Perm l₂ →
    ∀ b : Nat, l₁.foldl max b = l₂.foldl max b := by
  intro l₁ l₂ h
  induction h with
  | nil => intro b; rfl
  | cons x _ ih =>
    intro b
    simp only [List.foldl_cons]
    exact ih (max b x)
  | swap x y l =>
    intro b
    simp only [List.foldl_cons]
    rw [max_assoc, max_comm y x, ← max_assoc]
  | trans _ _ ih₁ ih₂ =>
    intro b
    rw [ih₁, ih₂]

/-- Folding completions over a user who already has a profile: each
completion adds one to totalQuizzesTaken and folds the attempt score into
highestScore with max, so the final profile carries the count and the max of
old highest and all completed scores. -/
theorem completeMany_present (u : String) :
    ∀ (l : List CompletionInput) (db : DB) (p : UserProfile),
      db.profiles.find? (fun x => x.userId == u) = some p →
      (∀ e ∈ l, ∃ att, db.attempts.find?
          (fun a => a.id == e.aid && a.userId == u) = some att ∧
        att.completedAt = none ∧ att.score = e.score) →
      (l.map (fun e => e.aid)).Pairwise (fun x y => x ≠ y) →
      ∃ db', completeMany u l db = .ok db' ∧
        db'.profiles.find? (fun x => x.userId == u) =
          some { p with
                 totalQuizzesTaken := p.totalQuizzesTaken + l.length,
                 highestScore := (l.map (fun e => e.score)).foldl max p.highestScore }
  | [], db, p, hp, _, _ => ⟨db, rfl, by simpa using hp⟩
  | e :: rest, db, p, hp, hatts, hpw => by
    obtain ⟨att, hatt, hprog, hscore⟩ := hatts e (List.mem_cons_self e rest)
    have hstep := completeAttempt_eq_ok_present db u e.aid e.pid 0 att p hatt hprog hp
    have hp1 := find?_profiles_update db.profiles u p
      (p.totalQuizzesTaken + 1) (max p.highestScore att.score) hp
    rw [List.map_cons, List.pairwise_cons] at hpw
    obtain ⟨hhead, htail⟩ := hpw
    obtain ⟨db', hrun, hfind⟩ :=
      completeMany_present u rest
        { db with
          attempts := db.attempts.map (fun a : QuizAttempt =>
            if a.id == e.aid then { a with completedAt := some 0 } else a),
          profiles := db.profiles.map (fun x : UserProfile =>
            if x.userId == u then
              { x with totalQuizzesTaken := p.totalQuizzesTaken + 1,
                       highestScore := max p.highestScore att.score }
            else x) }
        { p with totalQuizzesTaken := p.totalQuizzesTaken + 1,
                 highestScore := max p.highestScore att.score }
        hp1
        (by
          intro e' he'
          obtain ⟨att', hatt', hprog', hscore'⟩ := hatts e' (List.mem_cons_of_mem e he')
          have hne : e'.aid ≠ e.aid := by
            intro hcon
            exact (hhead e'.aid (List.mem_map_of_mem _ he')) hcon.symm
          refine ⟨att', ?_, hprog', hscore'⟩
          rw [show ({ db with
              attempts := db.attempts.map (fun a : QuizAttempt =>
                if a.id == e.aid then { a with completedAt := some 0 } else a),
              profiles := db.profiles.map (fun x : UserProfile =>
                if x.userId == u then
                  { x with totalQuizzesTaken := p.totalQuizzesTaken + 1,
                           highestScore := max p.highestScore att.score }
                else x) } : DB).attempts =
            db.attempts.map (fun a : QuizAttempt =>
              if a.id == e.aid then { a with completedAt := some 0 } else a) from rfl]
          rw [find?_attempts_completed_other db.attempts e.aid e'.aid u 0 hne]
          exact hatt')
        htail
    refine ⟨db', ?_, ?_⟩
    · simp only [completeMany, hstep]
      exact hrun
    · rw [hfind, hscore]
      simp only [List.map_cons, List.foldl_cons, List.length_cons]
      have harith : p.totalQuizzesTaken + 1 + rest.length =
          p.totalQuizzesTaken + (rest.length + 1) := by omega
      rw [harith]

/-- C6: starting from no profile or a signup-default profile, completing the
listed attempts (all owned, in-progress, with pairwise distinct ids) in any
order leaves the UserProfile with totalQuizzesTaken equal to the number of
completions and highestScore equal to the maximum of the completed scores;
each step either creates the profile with (1, score) when absent or applies
totalQuizzesTaken + 1 and max(old highestScore, score) in place. -/
theorem completion_aggregates_profile (u : String) (e : CompletionInput)
    (rest : List CompletionInput) (db : DB)
    (hstart : db.profiles.find? (fun x => x.userId == u) = none ∨
      ∃ p0, db.profiles.find? (fun x => x.userId == u) = some p0 ∧
        p0.totalQuizzesTaken = 0 ∧ p0.highestScore = 0)
    (hatts : ∀ x ∈ e :: rest, ∃ att, db.attempts.find?
        (fun a => a.id == x.aid && a.userId == u) = some att ∧
      att.completedAt = none ∧ att.score = x.score)
    (hpw : ((e :: rest).map (fun x => x.aid)).Pairwise (fun x y => x ≠ y)) :
    ∀ l₂, (e :: rest).Perm l₂ →
      ∃ db', completeMany u l₂ db = .ok db' ∧
        ∃ p', db'.profiles.find? (fun x => x.userId == u) = some p' ∧
          p'.totalQuizzesTaken = (e :: rest).length ∧
          p'.highestScore = ((e :: rest).map (fun x => x.score)).foldl max 0 := by
  intro l₂ hperm
  have hatts₂ : ∀ x ∈ l₂, ∃ att, db.attempts.find?
      (fun a => a.id == x.aid && a.userId == u) = some att ∧
      att.completedAt = none ∧ att.score = x.score :=
    fun x hx => hatts x (hperm.mem_iff.mpr hx)
  have hpw₂ : (l₂.map (fun x => x.aid)).Pairwise (fun x y => x ≠ y) :=
    (List.Perm.pairwise_iff (fun hxy => Ne.symm hxy)
      (hperm.map (fun x => x.aid))).mp hpw
  have hfold : ((e :: rest).map (fun x => x.score)).foldl max 0 =
      (l₂.map (fun x => x.score)).foldl max 0 :=
    foldl_max_perm (hperm.map (fun x => x.score)) 0
  have hlen : (e :: rest).length = l₂.length := hperm.length_eq
  cases l₂ with
  | nil => simp at hlen
  | cons e₂ rest₂ =>
    rcases hstart with hp | ⟨p0, hp0, hp0t, hp0h⟩
    · obtain ⟨att₂, hatt₂, hprog₂, hscore₂⟩ := hatts₂ e₂ (List.mem_cons_self e₂ rest₂)
      have hstep := completeAttempt_eq_ok_absent db u e₂.aid e₂.pid 0 att₂ hatt₂ hprog₂ hp
      have hp1 : (db.profiles ++
          [{ id := e₂.pid, userId := u, createdAt := 0, updatedAt := 0,
             totalQuizzesTaken := 1, highestScore := att₂.score : UserProfile }]).find?
          (fun x => x.userId == u) =
          some { id := e₂.pid, userId := u, createdAt := 0, updatedAt := 0,
                 totalQuizzesTaken := 1, highestScore := att₂.score } :=
        find?_profiles_append db.profiles u _ hp rfl
      rw [List.map_cons, List.pairwise_cons] at hpw₂
      obtain ⟨hhead₂, htail₂⟩ := hpw₂
      obtain ⟨db', hrun, hfind⟩ :=
        completeMany_present u rest₂
          { db with
            attempts := db.attempts.map (fun a : QuizAttempt =>
              if a.id == e₂.aid then { a with completedAt := some 0 } else a),
            profiles := db.profiles ++
              [{ id := e₂.pid, userId := u, createdAt := 0, updatedAt := 0,
                 totalQuizzesTaken := 1, highestScore := att₂.score }] }
          { id := e₂.pid, userId := u, createdAt := 0, updatedAt := 0,
            totalQuizzesTaken := 1, highestScore := att₂.score }
          hp1
          (by
            intro e' he'
            obtain ⟨att', hatt', hprog', hscore'⟩ :=
              hatts₂ e' (List.mem_cons_of_mem e₂ he')
            have hne : e'.aid ≠ e₂.aid := by
              intro hcon
              exact (hhead₂ e'.aid (List.mem_map_of_mem _ he')) hcon.symm
            refine ⟨att', ?_, hprog', hscore'⟩
            rw [show ({ db with
                attempts := db.attempts.map (fun a : QuizAttempt =>
                  if a.id == e₂.aid then { a with completedAt := some 0 } else a),
                profiles := db.profiles ++
                  [{ id := e₂.pid, userId := u, createdAt := 0, updatedAt := 0,
                     totalQuizzesTaken := 1, highestScore := att₂.score }] } : DB).attempts =
              db.attempts.map (fun a : QuizAttempt =>
                if a.id == e₂.aid then { a with completedAt := some 0 } else a) from rfl]
            rw [find?_attempts_completed_other db.attempts e₂.aid e'.aid u 0 hne]
            exact hatt')
          htail₂
      refine ⟨db', ?_, ⟨_, hfind, ?_, ?_⟩⟩
      · simp only [completeMany, hstep]
        exact hrun
      · show 1 + rest₂.length = (e :: rest).length
        simp only [List.length_cons] at hlen ⊢
        omega
      · show (rest₂.map (fun e => e.score)).foldl max att₂.score =
          ((e :: rest).map (fun x => x.score)).foldl max 0
        rw [hscore₂, hfold]
        simp only [List.map_cons, List.foldl_cons, Nat.zero_max]
    · obtain ⟨db', hrun, hfind⟩ :=
        completeMany_present u (e₂ :: rest₂) db p0 hp0 hatts₂ hpw₂
      refine ⟨db', hrun, ⟨_, hfind, ?_, ?_⟩⟩
      · show p0.totalQuizzesTaken + (e₂ :: rest₂).length = (e :: rest).length
        rw [hp0t, hlen]
        omega
      · show ((e₂ :: rest₂).map (fun e => e.score)).foldl max p0.highestScore =
          ((e :: rest).map (fun x => x.score)).foldl max 0
        rw [hp0h, hfold]

/-- A second sample in-progress attempt of user1 with score 3. -/
def attemptA : QuizAttempt :=
  { id := "a1", userId := "user1", questionSetId := "set1", score := 3,
    totalQuestions := 10, startedAt := 0, completedAt := none }

/-- A third sample in-progress attempt of user1 with score 1. -/
def attemptB : QuizAttempt :=
  { id := "a2", userId := "user1", questionSetId := "set1", score := 1,
    totalQuestions := 10, startedAt := 1, completedAt := none }

/-- A database with two in-progress attempts and no profile. -/
def multiDB : DB :=
  { emptyDB with
    questionSets := [set1], questions := [q1, q2],
    attempts := [attemptA, attemptB] }

/-- Completion input for the first sample attempt. -/
def ce1 : CompletionInput := { aid := "a1", pid := "p1", score := 3 }

/-- Completion input for the second sample attempt. -/
def ce2 : CompletionInput := { aid := "a2", pid := "p2", score := 1 }

/-- C6 witness: completing the two sample attempts in the reversed order
still yields totalQuizzesTaken = 2 and highestScore = max(3, 1) = 3. -/
theorem completion_aggregates_profile_witness :
    ∃ db', completeMany "user1" [ce2, ce1] multiDB = .ok db' ∧
      ∃ p', db'.profiles.find? (fun x => x.userId == "user1") = some p' ∧
        p'.totalQuizzesTaken = ([ce1, ce2] : List CompletionInput).length ∧
        p'.highestScore =
          (([ce1, ce2] : List CompletionInput).map (fun x => x.score)).foldl max 0 :=
  completion_aggregates_profile "user1" ce1 [ce2] multiDB
    (Or.inl rfl)
    (by
      intro x hx
      rcases List.mem_cons.mp hx with h | hx2
      · subst h
        exact ⟨attemptA, by decide, by decide, by decide⟩
      · rcases List.mem_cons.mp hx2 with h | hx3
        · subst h
          exact ⟨attemptB, by decide, by decide, by decide⟩
        · exact absurd hx3 (List.not_mem_nil x))
    (by decide)
    [ce2, ce1] (List.Perm.swap ce2 ce1 [])

/-- Redacted projections over a per-question rewrite of correctAnswer
coincide: the map rewriting correctAnswer changes neither filtering by set
nor the redacted view. -/
theorem filter_map_redact (g : Question → Question) (p : Question → Bool)
    (hp : ∀ q, p (g q) = p q) (hr : ∀ q, redactQuestion (g q) = redactQuestion q) :
    ∀ l : List Question,
      ((l.map g).filter p).map redactQuestion = (l.filter p).map redactQuestion
  | [] => rfl
  | x :: xs => by
    by_cases h : p x = true
    · simp only [List.map_cons, List.filter_cons, hp, h, if_true,
        filter_map_redact g p hp hr xs, hr]
    · have h' : p x = false := by simpa using h
      simp only [List.map_cons, List.filter_cons, hp, h', if_false,
        filter_map_redact g p hp hr xs, Bool.false_eq_true]

/-- C8: getQuestionSetDetail never exposes correctAnswer — its output is
unchanged when every correctAnswer in the question table is rewritten
arbitrarily — whereas every answer row of getAttemptDetail carries the joined
question's correctAnswer. -/
theorem correctAnswer_redaction (db : DB) (setId u aid : String)
    (f : Question → String) :
    (getQuestionSetDetail
        { db with questions := db.questions.map (fun q =>
            { q with correctAnswer := f q }) } setId =
      getQuestionSetDetail db setId) ∧
    (∀ v ∈ (getAttemptDetail db u aid).answers,
      ∃ ans, ans ∈ db.answers ∧ ans.quizAttemptId = aid ∧
        v.questionId = ans.questionId ∧ v.userAnswer = ans.userAnswer ∧
        v.isCorrect = ans.isCorrect ∧
        v.correctAnswer = (db.questions.find? (fun x => x.id == ans.questionId)).map
          (fun x => x.correctAnswer)) ∧
    (∀ v ∈ (getAttemptDetail db u aid).answers, ∀ qq,
      db.questions.find? (fun x => x.id == v.questionId) = some qq →
      v.correctAnswer = some qq.correctAnswer) := by
  have hmem : ∀ v ∈ (getAttemptDetail db u aid).answers,
      ∃ ans, ans ∈ db.answers ∧ ans.quizAttemptId = aid ∧ v = answerView db ans := by
    intro v hv
    simp only [getAttemptDetail, List.mem_map] at hv
    obtain ⟨ans, hansmem, hproj⟩ := hv
    rw [List.mem_filter] at hansmem
    exact ⟨ans, hansmem.1, by simpa using hansmem.2, hproj.symm⟩
  refine ⟨?_, ?_, ?_⟩
  · unfold getQuestionSetDetail
    cases hfound : db.questionSets.find? (fun s => s.id == setId) with
    | none => rfl
    | some qs =>
      have hfm := filter_map_redact (fun q => { q with correctAnswer := f q })
        (fun q => q.questionSetId == setId) (fun q => rfl) (fun q => rfl)
        db.questions
      simp only [hfound]
      rw [hfm]
  · intro v hv
    obtain ⟨ans, hmem', hattempt, hview⟩ := hmem v hv
    subst hview
    exact ⟨ans, hmem', hattempt, rfl, rfl, rfl, rfl⟩
  · intro v hv qq hqq
    obtain ⟨ans, _, _, hview⟩ := hmem v hv
    subst hview
    have : (answerView db ans).questionId = ans.questionId := rfl
    rw [this] at hqq
    show (db.questions.find? (fun x => x.id == ans.questionId)).map
      (fun x => x.correctAnswer) = some qq.correctAnswer
    rw [hqq]
    rfl

/-- A sample recorded answer of the sample attempt. -/
def answer1 : QuizAnswer :=
  { id := "ans1", quizAttemptId := "att1", questionId := "q1",
    userAnswer := "true", isCorrect := true, answeredAt := 7 }

/-- The sample database with the recorded answer. -/
def answersDB : DB := { quizDB with answers := [answer1] }

/-- C8 witness: the attempt-detail view of the recorded sample answer carries
the joined question's correctAnswer. -/
theorem correctAnswer_redaction_witness :
    ∃ ans, ans ∈ answersDB.answers ∧ ans.quizAttemptId = "att1" ∧
      (answerView answersDB answer1).questionId = ans.questionId ∧
      (answerView answersDB answer1).userAnswer = ans.userAnswer ∧
      (answerView answersDB answer1).isCorrect = ans.isCorrect ∧
      (answerView answersDB answer1).correctAnswer =
        (answersDB.questions.find? (fun x => x.id == ans.questionId)).map
          (fun x => x.correctAnswer) :=
  (correctAnswer_redaction answersDB "set1" "user1" "att1"
    (fun _ => "REDACTED")).2.1 (answerView answersDB answer1) (by decide)

/-- C9: a failed outbound provider call surfaces a 500 and leaves the
database untouched — zero new ChatSession or ChatMessage rows; a successful
call appends, in one transaction, exactly one ChatSession row keyed by the
provider session id with the provider creation time, the user message
stamped at server receipt time, and the assistant message stamped at
provider time. -/
theorem postCompletion_atomic (db : DB) (u role content : String) (serverNow : Nat)
    (pr : Option OpenAiChatCompletions) (m1 m2 : String) :
    (pr = none →
      runOp db (postCompletion db u { role := role, content := content }
          serverNow pr m1 m2) =
        (db, .error (.internal
          "An unexpected error occurred while processing your request."))) ∧
    (∀ res, pr = some res →
      postCompletion db u { role := role, content := content } serverNow pr m1 m2 =
        .ok ({ db with
                sessions := db.sessions ++
                  [{ id := res.id, userId := u, createdAt := res.created * 1000 }],
                messages := db.messages ++
                  [{ id := m1, chatSessionId := res.id, role := role,
                     content := content, createdAt := serverNow },
                   { id := m2, chatSessionId := res.id, role := "assistant",
                     content := String.intercalate ","
                       (res.choices.map (fun c => c.message)),
                     createdAt := res.created * 1000 }] },
             { role := "assistant",
               content := String.intercalate ","
                 (res.choices.map (fun c => c.message)) })) := by
  constructor
  · intro h
    subst h
    rfl
  · intro res h
    subst h
    rfl

/-- A sample provider response with two choices. -/
def res0 : OpenAiChatCompletions :=
  { id := "sess1", created := 2, choices := [{ message := "hello" }, { message := "there" }] }

/-- C9 witness: the failing call keeps the empty database empty; the
successful call appends the session and the two messages with the claimed
timestamps. -/
theorem postCompletion_atomic_witness :
    runOp emptyDB (postCompletion emptyDB "u1" { role := "user", content := "hi" }
        5 none "m1" "m2") =
      (emptyDB, .error (.internal
        "An unexpected error occurred while processing your request.")) ∧
    postCompletion emptyDB "u1" { role := "user", content := "hi" } 5
        (some res0) "m1" "m2" =
      .ok ({ emptyDB with
              sessions := emptyDB.sessions ++
                [{ id := res0.id, userId := "u1", createdAt := res0.created * 1000 }],
              messages := emptyDB.messages ++
                [{ id := "m1", chatSessionId := res0.id, role := "user",
                   content := "hi", createdAt := 5 },
                 { id := "m2", chatSessionId := res0.id, role := "assistant",
                   content := String.intercalate ","
                     (res0.choices.map (fun c => c.message)),
                   createdAt := res0.created * 1000 }] },
           { role := "assistant",
             content := String.intercalate ","
               (res0.choices.map (fun c => c.message)) }) :=
  ⟨(postCompletion_atomic emptyDB "u1" "user" "hi" 5 none "m1" "m2").1 rfl,
   (postCompletion_atomic emptyDB "u1" "user" "hi" 5 (some res0) "m1" "m2").2 res0 rfl⟩

/-- Membership through the stable insertion used for ORDER BY. -/
theorem mem_insertByCreatedAt (m x : ChatMessage) :
    ∀ l : List ChatMessage, (x ∈ insertByCreatedAt m l ↔ x = m ∨ x ∈ l)
  | [] => by simp [insertByCreatedAt]
  | y :: ys => by
    by_cases h : m.createdAt < y.createdAt
    · simp [insertByCreatedAt, h]
    · simp only [insertByCreatedAt, h, if_false, List.mem_cons,
        mem_insertByCreatedAt m x ys]
      tauto

/-- Membership through the ORDER BY sort. -/
theorem mem_orderByCreatedAt (x : ChatMessage) :
    ∀ l : List ChatMessage, (x ∈ orderByCreatedAt l ↔ x ∈ l)
  | [] => Iff.rfl
  | y :: ys => by
    simp only [orderByCreatedAt, mem_insertByCreatedAt, List.mem_cons,
      mem_orderByCreatedAt x ys]

/-- C10: every item that GET /chat/history returns takes its `id` from the
containing ChatSession (the chatSessionId of the underlying message, which is
the id of one of the caller's sessions), not from the ChatMessage row itself,
so all messages of one session share the same `id` value in the response. -/
theorem getHistory_id_is_session_id (db : DB) (u : String) :
    ∀ h ∈ getHistory db u, ∃ m, m ∈ db.messages ∧
      h.id = m.chatSessionId ∧ h.role = m.role ∧ h.content = m.content ∧
      h.createdAt = m.createdAt ∧
      ∃ s, s ∈ db.sessions ∧ s.userId = u ∧ s.id = m.chatSessionId := by
  intro h hh
  simp only [getHistory] at hh
  split at hh
  · exact absurd hh (List.not_mem_nil h)
  · rw [List.mem_map] at hh
    obtain ⟨m, hmem, hproj⟩ := hh
    rw [mem_orderByCreatedAt] at hmem
    rw [List.mem_filter] at hmem
    obtain ⟨hmsg, hcontains⟩ := hmem
    have hin : m.chatSessionId ∈
        (db.sessions.filter (fun s => s.userId == u)).map (fun s => s.id) :=
      List.elem_iff.mp hcontains
    rw [List.mem_map] at hin
    obtain ⟨s, hsmem, hsid⟩ := hin
    rw [List.mem_filter] at hsmem
    subst hproj
    exact ⟨m, hmsg, rfl, rfl, rfl, rfl, s, hsmem.1, by simpa using hsmem.2, hsid⟩

/-- A sample chat database: one session of u1 with two messages whose own row
ids differ from the session id. -/
def chatDB : DB :=
  { emptyDB with
    sessions := [{ id := "s1", userId := "u1", createdAt := 0 }],
    messages :=
      [{ id := "m1", chatSessionId := "s1", role := "user",
         content := "Hello", createdAt := 1 },
       { id := "m2", chatSessionId := "s1", role := "assistant",
         content := "Hi there", createdAt := 2 }] }

/-- C10 witness: the first returned history item of the sample chat database
carries the session id s1, not its own message id m1. -/
theorem getHistory_id_is_session_id_witness :
    ∃ m, m ∈ chatDB.messages ∧
      ({ id := "s1", role := "user", content := "Hello",
         createdAt := 1 : ChatHistoryItem }).id = m.chatSessionId ∧
      ({ id := "s1", role := "user", content := "Hello",
         createdAt := 1 : ChatHistoryItem }).role = m.role ∧
      ({ id := "s1", role := "user", content := "Hello",
         createdAt := 1 : ChatHistoryItem }).content = m.content ∧
      ({ id := "s1", role := "user", content := "Hello",
         createdAt := 1 : ChatHistoryItem }).createdAt = m.createdAt ∧
      ∃ s, s ∈ chatDB.sessions ∧ s.userId = "u1" ∧ s.id = m.chatSessionId :=
  getHistory_id_is_session_id chatDB "u1"
    { id := "s1", role := "user", content := "Hello", createdAt := 1 } (by decide)

end AiIntroServer
